import Mathlib

/-!
Verification of the component reconciler (`pkg/compreconciler`) against its
natural-language specification.

The Go source is shallowly embedded: pure logic becomes Lean functions,
`time.Duration` values become `Int` nanoseconds, Kubernetes numeric status
fields (`int32` converted with `int(...)` in the source) become `Int`,
cluster fetches become explicit `Except` parameters, and Go label maps become
association lists compared with map semantics (key-wise lookup equality).
-/

namespace Compreconciler

/-! ## Configuration and `validate` (reconciler.go lines 21-27, 63-76) -/

/-- One second of `time.Duration`, in nanoseconds. -/
def second : Int := 1000000000

def defaultServerPort : Int := 8080
def defaultMaxRetries : Int := 5
def defaultUpdateInterval : Int := 30 * second
def defaultRetryDelay : Int := 30 * second

/-- The fields of `ComponentReconciler` that the configuration logic reads or
writes.  The action pipeline, chart provider and tracker interval/timeout are
opaque to `validate` and omitted. -/
structure ComponentReconciler where
  debug : Bool
  port : Int
  sslCrtFile : String
  sslKeyFile : String
  updateInterval : Int
  maxRetries : Int
  retryDelay : Int

/-- Embedding of `(r *ComponentReconciler) validate()`: each field is replaced
by its default exactly when it is non-positive, in source order
(updateInterval, maxRetries, port, retryDelay). -/
def validate (r : ComponentReconciler) : ComponentReconciler :=
  let r1 := if r.updateInterval ≤ 0 then { r with updateInterval := defaultUpdateInterval } else r
  let r2 := if r1.maxRetries ≤ 0 then { r1 with maxRetries := defaultMaxRetries } else r1
  let r3 := if r2.port ≤ 0 then { r2 with port := defaultServerPort } else r2
  if r3.retryDelay ≤ 0 then { r3 with retryDelay := defaultRetryDelay } else r3

/-! ## StatefulSet readiness (reconciler.go progress part, `isStatefulSetReady`) -/

/-- An error returned by a cluster read. -/
structure K8sErr where
  msg : String
deriving DecidableEq

/-- The fields of a fetched StatefulSet read by `isStatefulSetReady`.
`specReplicas` is `none` when `Spec.Replicas` is nil; `rollingUpdatePartition`
is `none` when `Spec.UpdateStrategy.RollingUpdate` or its `Partition` is nil. -/
structure StatefulSetT where
  specReplicas : Option Int
  rollingUpdatePartition : Option Int
  updatedReplicas : Int
  readyReplicas : Int

/-- Embedding of `isStatefulSetReady`; the `Except` argument is the result of
the `Get` call on the cluster. -/
def isStatefulSetReady (fetch : Except K8sErr StatefulSetT) : Bool × Option K8sErr :=
  match fetch with
  | .error e => (false, some e)
  | .ok s =>
    let partition : Int := match s.rollingUpdatePartition with
      | some p => p
      | none => 0
    let replicas : Int := match s.specReplicas with
      | some n => n
      | none => 1
    let expectedReplicas := replicas - partition
    if s.updatedReplicas ≠ expectedReplicas then (false, none)
    else (s.readyReplicas == replicas, none)

/-! ## CRD readiness, v1 and v1beta1 (`crdReady`, `crdBetaReady`) -/

/-- The apiextensions/v1 condition type and status constants. -/
def Established : String := "Established"
def NamesAccepted : String := "NamesAccepted"
def ConditionTrue : String := "True"
def ConditionFalse : String := "False"

/-- The apiextensions/v1beta1 constants (same underlying strings as v1). -/
def betaEstablished : String := "Established"
def betaNamesAccepted : String := "NamesAccepted"
def betaConditionTrue : String := "True"
def betaConditionFalse : String := "False"

/-- A `CustomResourceDefinitionCondition` of apiextensions/v1, restricted to
the fields `crdReady` reads. -/
structure CRDConditionV1 where
  condType : String
  status : String

/-- A v1 `CustomResourceDefinition`, restricted to its status conditions. -/
structure CRDV1 where
  conditions : List CRDConditionV1

/-- A `CustomResourceDefinitionCondition` of apiextensions/v1beta1. -/
structure CRDConditionV1beta1 where
  condType : String
  status : String

/-- A v1beta1 `CustomResourceDefinition`, restricted to its status conditions. -/
structure CRDV1beta1 where
  conditions : List CRDConditionV1beta1

/-- The condition loop of `crdReady`: first `Established` condition with status
`True`, or first `NamesAccepted` condition with status `False`, makes the CRD
ready; otherwise the loop falls through to `false`. -/
def crdReadyLoop : List CRDConditionV1 → Bool
  | [] => false
  | c :: rest =>
    if c.condType = Established then
      if c.status = ConditionTrue then true else crdReadyLoop rest
    else if c.condType = NamesAccepted then
      if c.status = ConditionFalse then true else crdReadyLoop rest
    else crdReadyLoop rest

/-- Embedding of `crdReady` (v1). -/
def crdReady (crd : CRDV1) : Bool :=
  crdReadyLoop crd.conditions

/-- The condition loop of `crdBetaReady`, textually parallel to v1. -/
def crdBetaReadyLoop : List CRDConditionV1beta1 → Bool
  | [] => false
  | c :: rest =>
    if c.condType = betaEstablished then
      if c.status = betaConditionTrue then true else crdBetaReadyLoop rest
    else if c.condType = betaNamesAccepted then
      if c.status = betaConditionFalse then true else crdBetaReadyLoop rest
    else crdBetaReadyLoop rest

/-- Embedding of `crdBetaReady` (v1beta1). -/
def crdBetaReady (crd : CRDV1beta1) : Bool :=
  crdBetaReadyLoop crd.conditions

/-! ## Deployment readiness and current-replica-set selection
(`isDeploymentReady`, `getLatestReplicaSet`, `findNewReplicaSet`,
`equalIgnoreHash`, `replicaSetsByCreationTimestamp`) -/

/-- Lookup of a key in a label map (first binding wins, as in a Go map where
keys are unique). -/
def lookupLabel (m : List (String × String)) (k : String) : Option String :=
  match m with
  | [] => none
  | kv :: rest => if kv.1 = k then some kv.2 else lookupLabel rest k

/-- Go `delete(m, k)`: the map without key `k`. -/
def deleteKey (m : List (String × String)) (k : String) : List (String × String) :=
  m.filter (fun kv => kv.1 ≠ k)

/-- Map equality as `apiequality.Semantic.DeepEqual` sees it: the same keys
bound to the same values, regardless of representation order. -/
def labelsEqual (a b : List (String × String)) : Bool :=
  (a.map Prod.fst ++ b.map Prod.fst).all
    (fun k => lookupLabel a k == lookupLabel b k)

/-- Constant `appsv1.DefaultDeploymentUniqueLabelKey`, the revision-hash label
injected on replica-set pod templates. -/
def DefaultDeploymentUniqueLabelKey : String := "pod-template-hash"

/-- A `corev1.PodTemplateSpec`: its label map plus the remainder of the
template (pod spec, other metadata), opaque to the selection logic and
embedded as an uninterpreted `String`. -/
structure PodTemplateSpec where
  labels : List (String × String)
  core : String

/-- Structural template equality as `apiequality.Semantic.DeepEqual` computes
it on this embedding: label maps equal as maps, remainder equal. -/
def templateDeepEqual (t1 t2 : PodTemplateSpec) : Bool :=
  labelsEqual t1.labels t2.labels && t1.core == t2.core

/-- Embedding of `equalIgnoreHash`: compare deep copies of both templates
after deleting the revision-hash label from each copy's label map. -/
def equalIgnoreHash (template1 template2 : PodTemplateSpec) : Bool :=
  let t1Copy : PodTemplateSpec :=
    { template1 with labels := deleteKey template1.labels DefaultDeploymentUniqueLabelKey }
  let t2Copy : PodTemplateSpec :=
    { template2 with labels := deleteKey template2.labels DefaultDeploymentUniqueLabelKey }
  templateDeepEqual t1Copy t2Copy

/-- The fields of an `appsv1.ReplicaSet` read by the selection logic and by
`isDeploymentReady`.  `controllerOwnerUID` is the UID in its controller owner
reference, when one exists (`metav1.IsControlledBy` compares it with the
deployment's UID). -/
structure ReplicaSet where
  name : String
  creationTimestamp : Int
  controllerOwnerUID : Option String
  template : PodTemplateSpec
  readyReplicas : Int

/-- The fields of an `appsv1.Deployment` read by the same logic. -/
structure Deployment where
  uid : String
  template : PodTemplateSpec

/-- Embedding of `metav1.IsControlledBy(rs, deployment)`. -/
def isControlledBy (rs : ReplicaSet) (d : Deployment) : Bool :=
  rs.controllerOwnerUID == some d.uid

/-- The order `sort.Sort(replicaSetsByCreationTimestamp)` establishes:
creation timestamp ascending, ties broken by name ascending.  `rsLe a b` is
`¬ Less(b, a)` for the source's `Less`. -/
def rsLe (a b : ReplicaSet) : Prop :=
  a.creationTimestamp < b.creationTimestamp ∨
    (a.creationTimestamp = b.creationTimestamp ∧ a.name ≤ b.name)

instance : DecidableRel rsLe := fun a b => by
  unfold rsLe; infer_instance

/-- The sort performed by `findNewReplicaSet` via
`sort.Sort(replicaSetsByCreationTimestamp rsList)`, determinised as insertion
sort (any valid `sort.Sort` outcome is a permutation sorted under `rsLe`;
they coincide whenever no two replica sets share timestamp and name). -/
def sortRS (l : List ReplicaSet) : List ReplicaSet :=
  List.insertionSort rsLe l

/-- Embedding of `findNewReplicaSet`: sort the candidates, return the first
whose pod template equals the deployment's up to the revision-hash label. -/
def findNewReplicaSet (deployment : Deployment) (rsList : List ReplicaSet) :
    Option ReplicaSet :=
  (sortRS rsList).find? (fun rs => equalIgnoreHash rs.template deployment.template)

/-- Embedding of `getLatestReplicaSet` for a successful List call:
`allReplicaSets` is the list returned by the label-selector query; retain the
controller-owned ones, return `none` when there are none, otherwise delegate
to `findNewReplicaSet`. -/
def getLatestReplicaSet (deployment : Deployment) (allReplicaSets : List ReplicaSet) :
    Option ReplicaSet :=
  let ownedReplicaSets := allReplicaSets.filter (fun rs => isControlledBy rs deployment)
  if ownedReplicaSets.isEmpty then none
  else findNewReplicaSet deployment ownedReplicaSets

def expectedReadyReplicas : Int := 1

/-- Embedding of `isDeploymentReady`.  The first argument is the result of the
deployment `Get`; the second is the result of the replica-set List (a selector
parse failure surfaces through the same error path).  A `nil` replica set is
not ready but not an error; otherwise ready iff `ReadyReplicas ≥ 1`. -/
def isDeploymentReady (fetchDeployment : Except K8sErr Deployment)
    (fetchReplicaSets : Except K8sErr (List ReplicaSet)) : Bool × Option K8sErr :=
  match fetchDeployment with
  | .error e => (false, some e)
  | .ok deployment =>
    match fetchReplicaSets with
    | .error e => (false, some e)
    | .ok allReplicaSets =>
      match getLatestReplicaSet deployment allReplicaSets with
      | none => (false, none)
      | some replicaSet => (replicaSet.readyReplicas ≥ expectedReadyReplicas, none)

/-! ## Imperative model of `equalIgnoreHash`

Go's `delete(t1Copy.Labels, ...)` mutates a map object in place; the copies
come from `DeepCopy`, so the arguments' maps are untouched.  To state that as
a frame property, label maps live in an explicit heap of map cells and pod
templates hold a reference into it; `DeepCopy` allocates fresh cells and
`delete` mutates a cell. -/

/-- A heap of label-map objects; cell `i` is `cells[i]`. -/
structure LabelHeap where
  cells : List (List (String × String))

/-- Read the map object at reference `i`. -/
def LabelHeap.get (σ : LabelHeap) (i : Nat) : List (String × String) :=
  (σ.cells[i]?).getD []

/-- Allocate a fresh map object holding `v`; returns the new heap and the
fresh reference. -/
def LabelHeap.alloc (σ : LabelHeap) (v : List (String × String)) : LabelHeap × Nat :=
  (⟨σ.cells ++ [v]⟩, σ.cells.length)

/-- Overwrite the map object at reference `i` (Go's in-place map mutation). -/
def LabelHeap.put (σ : LabelHeap) (i : Nat) (v : List (String × String)) : LabelHeap :=
  ⟨σ.cells.set i v⟩

/-- A `PodTemplateSpec` whose label map is a heap reference. -/
structure PodTemplateRef where
  labelsRef : Nat
  core : String

/-- Imperative embedding of `equalIgnoreHash`: deep-copy both templates
(allocating fresh label-map cells), delete the revision-hash label in place
on the copies, compare, and return the comparison together with the final
heap. -/
def equalIgnoreHashImp (σ : LabelHeap) (template1 template2 : PodTemplateRef) :
    Bool × LabelHeap :=
  let a1 := σ.alloc (σ.get template1.labelsRef)
  let σ1 := a1.1
  let t1CopyRef := a1.2
  let a2 := σ1.alloc (σ1.get template2.labelsRef)
  let σ2 := a2.1
  let t2CopyRef := a2.2
  let σ3 := σ2.put t1CopyRef (deleteKey (σ2.get t1CopyRef) DefaultDeploymentUniqueLabelKey)
  let σ4 := σ3.put t2CopyRef (deleteKey (σ3.get t2CopyRef) DefaultDeploymentUniqueLabelKey)
  (labelsEqual (σ4.get t1CopyRef) (σ4.get t2CopyRef) && (template1.core == template2.core), σ4)

/-! ## The retry-driven run loop

The `runner` type's `Run` method is invoked by `ComponentReconciler.start` but
its file is not part of the examined sources; it is modelled from the spec. -/

/-- Reconciliation lifecycle status.  `Running` is the confirmed member; the
spec requires at least one success and one failure terminal state. -/
inductive Status where
  | Running
  | successTerminal
  | failureTerminal
deriving DecidableEq

/-- Observable events of one run: a status delivery through the callback
handler, or the work of one attempt (action pipeline, and tracker wait when
the pipeline succeeds). -/
inductive RunEvent where
  | delivered (s : Status)
  | attemptWork (attempt : Nat)
deriving DecidableEq

/-- Terminal result of a run. -/
inductive RunResult where
  | ok
  | retriesExhausted (lastCause : String)
deriving DecidableEq

/-- Modelled from the spec: the recursion underlying `runner.Run` (the runner
file is not among the examined sources).  Per spec §4.2, for each attempt:
deliver `Running`, run the action pipeline, on success enter the tracker
wait; success delivers the success terminal status and returns; failure of
either consumes one attempt and retries after the (time-abstracted) retry
delay; once attempts are exhausted the failure terminal status is delivered
and a RetriesExhaustedError wrapping the last cause is returned.
`pipeline attempt` and `tracker attempt` are the outcomes of that attempt's
action pipeline and readiness wait. -/
def runGo (pipeline tracker : Nat → Except String Unit) :
    Nat → Nat → String → List RunEvent × RunResult
  | _, 0, lastCause =>
    ([.delivered .failureTerminal], .retriesExhausted lastCause)
  | attempt, remaining + 1, _ =>
    let pre : List RunEvent := [.delivered .Running, .attemptWork attempt]
    match pipeline attempt with
    | .ok _ =>
      match tracker attempt with
      | .ok _ => (pre ++ [.delivered .successTerminal], .ok)
      | .error e =>
        let rest := runGo pipeline tracker (attempt + 1) remaining e
        (pre ++ rest.1, rest.2)
    | .error e =>
      let rest := runGo pipeline tracker (attempt + 1) remaining e
      (pre ++ rest.1, rest.2)

/-- Modelled from the spec: one run with attempts numbered `1..maxRetries`. -/
def runnerRun (pipeline tracker : Nat → Except String Unit) (maxRetries : Nat) :
    List RunEvent × RunResult :=
  runGo pipeline tracker 1 maxRetries ""

/-- Is this event a `Running` delivery? -/
def isRunningDelivery (e : RunEvent) : Bool :=
  e == .delivered .Running

/-- Is this event an attempt's work? -/
def isAttemptWork (e : RunEvent) : Bool :=
  match e with
  | .attemptWork _ => true
  | _ => false

/-! ## The HTTP trigger handler of `StartRemote` (reconciler.go lines 134-151)

The handler body is embedded with the outcomes of its three effectful steps
as parameters: `r.model(req)` (version extraction, body read, decode),
`newRemoteCallbackHandler` (not among the examined sources, modelled from the
spec), and `r.start`. -/

/-- The reconciliation model, restricted to the one field the handler reads.
Modelled from the spec: the `Reconciliation` struct itself is defined outside
the examined sources; the handler dereferences its `CallbackURL`. -/
structure Reconciliation where
  callbackURL : String

/-- One response write to the `http.ResponseWriter`. -/
structure HttpResponse where
  code : Nat
  body : String
deriving DecidableEq

/-- The text `http.StatusText(500)` resolves to. -/
def statusText500 : String := "Internal Server Error"

/-- Embedding of `sendError`: writes HTTP 500 with body
`"<status text>\n\n<error detail>"`. -/
def sendError (errMsg : String) : HttpResponse :=
  ⟨500, statusText500 ++ "\n\n" ++ errMsg⟩

/-- Modelled from the spec: `newRemoteCallbackHandler` (not among the
examined sources) fails fast iff the URL is empty or does not parse as an
absolute URL; absolute-URL parsing is abstracted as the presence of a
`://` scheme separator. -/
def newRemoteCallbackHandler (url : String) : Except String Unit :=
  if url = "" then .error "callback URL is empty"
  else if (url.splitOn "://").length < 2 then .error "callback URL is not absolute"
  else .ok ()

/-- How the handler's control flow ended: normally, or in a runtime panic. -/
inductive HandlerTermination where
  | normal
  | panicked
deriving DecidableEq

/-- What one request to `/v{version}/run` observably did. -/
structure HandlerTrace where
  responses : List HttpResponse
  runStarted : Bool
  termination : HandlerTermination
deriving DecidableEq

/-- Embedding of the request handler installed by `StartRemote`.  The source
calls `r.sendError` on a failed step but does not return afterwards: when
`r.model` fails, `model` is nil and the following `model.CallbackURL` is a
nil-pointer dereference (panic); when `newRemoteCallbackHandler` fails, the
handler still calls `r.start`, so the run executes.  `runOutcome model` is
the result of `r.start` for the decoded model. -/
def handleRun (modelRes : Except String Reconciliation)
    (runOutcome : Reconciliation → Except String Unit) : HandlerTrace :=
  match modelRes with
  | .error e =>
    { responses := [sendError e], runStarted := false, termination := .panicked }
  | .ok model =>
    match newRemoteCallbackHandler model.callbackURL with
    | .error e =>
      match runOutcome model with
      | .error e2 =>
        { responses := [sendError e, sendError e2], runStarted := true,
          termination := .normal }
      | .ok _ =>
        { responses := [sendError e], runStarted := true, termination := .normal }
    | .ok _ =>
      match runOutcome model with
      | .error e2 =>
        { responses := [sendError e2], runStarted := true, termination := .normal }
      | .ok _ =>
        { responses := [], runStarted := true, termination := .normal }

/-! ## Helper lemmas -/

theorem crdReadyLoop_eq_true_iff (l : List CRDConditionV1) :
    crdReadyLoop l = true ↔
      ∃ c ∈ l, (c.condType = Established ∧ c.status = ConditionTrue) ∨
        (c.condType = NamesAccepted ∧ c.status = ConditionFalse) := by
  induction l with
  | nil => simp [crdReadyLoop]
  | cons c rest ih =>
    simp only [crdReadyLoop]
    split_ifs with h1 h2 h3 h4 <;>
      (simp_all [List.exists_mem_cons_iff]; try tauto)

theorem crdBetaReadyLoop_eq_true_iff (l : List CRDConditionV1beta1) :
    crdBetaReadyLoop l = true ↔
      ∃ c ∈ l, (c.condType = betaEstablished ∧ c.status = betaConditionTrue) ∨
        (c.condType = betaNamesAccepted ∧ c.status = betaConditionFalse) := by
  induction l with
  | nil => simp [crdBetaReadyLoop]
  | cons c rest ih =>
    simp only [crdBetaReadyLoop]
    split_ifs with h1 h2 h3 h4 <;>
      (simp_all [List.exists_mem_cons_iff]; try tauto)

theorem validate_eq (r : ComponentReconciler) :
    validate r =
      ⟨r.debug,
        if r.port ≤ 0 then defaultServerPort else r.port,
        r.sslCrtFile, r.sslKeyFile,
        if r.updateInterval ≤ 0 then defaultUpdateInterval else r.updateInterval,
        if r.maxRetries ≤ 0 then defaultMaxRetries else r.maxRetries,
        if r.retryDelay ≤ 0 then defaultRetryDelay else r.retryDelay⟩ := by
  unfold validate
  by_cases h1 : r.updateInterval ≤ 0 <;>
    by_cases h2 : r.maxRetries ≤ 0 <;>
      by_cases h3 : r.port ≤ 0 <;>
        by_cases h4 : r.retryDelay ≤ 0 <;>
          simp [h1, h2, h3, h4]

/-! ## Claim theorems -/

/-- C8: the validation pass sets `updateInterval` to 30s, `maxRetries` to 5
and `retryDelay` to 30s exactly when the respective field is unset or
non-positive, and leaves each of these fields unchanged when it is already
positive. -/
theorem validate_applies_defaults (r : ComponentReconciler) :
    (validate r).updateInterval =
      (if r.updateInterval ≤ 0 then 30 * second else r.updateInterval) ∧
    (validate r).maxRetries = (if r.maxRetries ≤ 0 then 5 else r.maxRetries) ∧
    (validate r).retryDelay =
      (if r.retryDelay ≤ 0 then 30 * second else r.retryDelay) := by
  simp [validate_eq, defaultUpdateInterval, defaultMaxRetries, defaultRetryDelay]

/-- C10: `validate` is idempotent on `updateInterval`, `maxRetries`,
`retryDelay` and the server port, and after one application all four fields
are positive. -/
theorem validate_idempotent (r : ComponentReconciler) :
    (validate (validate r)).updateInterval = (validate r).updateInterval ∧
    (validate (validate r)).maxRetries = (validate r).maxRetries ∧
    (validate (validate r)).retryDelay = (validate r).retryDelay ∧
    (validate (validate r)).port = (validate r).port ∧
    0 < (validate r).updateInterval ∧ 0 < (validate r).maxRetries ∧
    0 < (validate r).retryDelay ∧ 0 < (validate r).port := by
  simp only [validate_eq]
  split_ifs <;>
    simp_all [defaultUpdateInterval, defaultMaxRetries, defaultServerPort,
      defaultRetryDelay, second]

/-- C5: for a StatefulSet whose fetch succeeds, with `replicas` the spec
replica count (1 when unset) and `partition` the rolling-update partition
(0 when unset), `isStatefulSetReady` returns `(true, nil)` iff
`UpdatedReplicas = replicas - partition` and `ReadyReplicas = replicas`;
`replicas=3, partition=1, UpdatedReplicas=2, ReadyReplicas=3` yields `true`,
and the same inputs with `UpdatedReplicas=1` yield `false` regardless of
`ReadyReplicas`. -/
theorem isStatefulSetReady_spec (s : StatefulSetT) (anyReady : Int) :
    (isStatefulSetReady (Except.ok s) =
      ((true : Bool), (none : Option K8sErr)) ↔
      (s.updatedReplicas = s.specReplicas.getD 1 - s.rollingUpdatePartition.getD 0 ∧
       s.readyReplicas = s.specReplicas.getD 1)) ∧
    isStatefulSetReady (Except.ok ⟨some 3, some 1, 2, 3⟩) = (true, none) ∧
    isStatefulSetReady (Except.ok ⟨some 3, some 1, 1, anyReady⟩) = (false, none) := by
  refine ⟨?_, by decide, ?_⟩
  · obtain ⟨sr, sp, updated, ready⟩ := s
    unfold isStatefulSetReady
    cases sr <;> cases sp <;>
      simp only [Option.getD_some, Option.getD_none] <;>
        split_ifs <;> simp_all
  · norm_num [isStatefulSetReady]

/-- C6: a CRD (v1 or v1beta1) is ready iff some status condition of type
`Established` has status `True` or some condition of type `NamesAccepted` has
status `False`; a CRD whose only condition is `NamesAccepted=False` is ready,
and a CRD with no matching condition is not ready. -/
theorem crdReady_spec (crd : CRDV1) (crdB : CRDV1beta1) :
    (crdReady crd = true ↔
      ∃ c ∈ crd.conditions,
        (c.condType = Established ∧ c.status = ConditionTrue) ∨
        (c.condType = NamesAccepted ∧ c.status = ConditionFalse)) ∧
    (crdBetaReady crdB = true ↔
      ∃ c ∈ crdB.conditions,
        (c.condType = betaEstablished ∧ c.status = betaConditionTrue) ∨
        (c.condType = betaNamesAccepted ∧ c.status = betaConditionFalse)) ∧
    crdReady ⟨[⟨NamesAccepted, ConditionFalse⟩]⟩ = true ∧
    crdBetaReady ⟨[⟨betaNamesAccepted, betaConditionFalse⟩]⟩ = true := by
  refine ⟨crdReadyLoop_eq_true_iff crd.conditions,
    crdBetaReadyLoop_eq_true_iff crdB.conditions, ?_, ?_⟩ <;> decide

/-- C7: the v1 and v1beta1 CRD readiness predicates agree on every pair of
CRDs carrying the same ordered list of (condition type, condition status)
pairs. -/
theorem crdReady_eq_crdBetaReady (l1 : List CRDConditionV1)
    (l2 : List CRDConditionV1beta1)
    (h : l1.map (fun c => (c.condType, c.status)) =
      l2.map (fun c => (c.condType, c.status))) :
    crdReady ⟨l1⟩ = crdBetaReady ⟨l2⟩ := by
  unfold crdReady crdBetaReady
  induction l1 generalizing l2 with
  | nil =>
    cases l2 with
    | nil => rfl
    | cons c2 rest2 => simp at h
  | cons c1 rest1 ih =>
    cases l2 with
    | nil => simp at h
    | cons c2 rest2 =>
      simp only [List.map_cons, List.cons.injEq, Prod.mk.injEq] at h
      obtain ⟨⟨ht, hs⟩, hrest⟩ := h
      simp only [crdReadyLoop, crdBetaReadyLoop, ht, hs, Established,
        betaEstablished, NamesAccepted, betaNamesAccepted, ConditionTrue,
        betaConditionTrue, ConditionFalse, betaConditionFalse]
      split_ifs <;> first | rfl | exact ih rest2 hrest

/-- Closed instance of `crdReady_eq_crdBetaReady` discharging its
hypothesis. -/
theorem crdReady_eq_crdBetaReady_witness :
    ([⟨"Established", "True"⟩] : List CRDConditionV1).map
        (fun c => (c.condType, c.status)) =
      ([⟨"Established", "True"⟩] : List CRDConditionV1beta1).map
        (fun c => (c.condType, c.status)) ∧
    crdReady ⟨[⟨"Established", "True"⟩]⟩ =
      crdBetaReady ⟨[⟨"Established", "True"⟩]⟩ :=
  ⟨rfl, crdReady_eq_crdBetaReady _ _ rfl⟩

instance : IsTotal ReplicaSet rsLe :=
  ⟨fun a b => by
    unfold rsLe
    rcases lt_trichotomy a.creationTimestamp b.creationTimestamp with h | h | h
    · exact Or.inl (Or.inl h)
    · rcases le_total a.name b.name with hn | hn
      · exact Or.inl (Or.inr ⟨h, hn⟩)
      · exact Or.inr (Or.inr ⟨h.symm, hn⟩)
    · exact Or.inr (Or.inl h)⟩

instance : IsTrans ReplicaSet rsLe :=
  ⟨fun a b c hab hbc => by
    unfold rsLe at *
    rcases hab with h1 | ⟨e1, n1⟩ <;> rcases hbc with h2 | ⟨e2, n2⟩
    · exact Or.inl (h1.trans h2)
    · exact Or.inl (e2 ▸ h1)
    · exact Or.inl (e1 ▸ h2)
    · exact Or.inr ⟨e1.trans e2, n1.trans n2⟩⟩

/-- C4: the current-replica-set selection keeps only candidates
controller-owned by the deployment, sorts them ascending by creation
timestamp with ties broken by name, and returns the first candidate whose
pod template equals the deployment's after deleting the `pod-template-hash`
label from both sides' label maps; with no match it returns none. -/
theorem getLatestReplicaSet_spec (d : Deployment) (l : List ReplicaSet) :
    (sortRS (l.filter (fun rs => isControlledBy rs d))).Perm
      (l.filter (fun rs => isControlledBy rs d)) ∧
    List.Sorted rsLe (sortRS (l.filter (fun rs => isControlledBy rs d))) ∧
    getLatestReplicaSet d l =
      (sortRS (l.filter (fun rs => isControlledBy rs d))).find? (fun rs =>
        labelsEqual (deleteKey rs.template.labels DefaultDeploymentUniqueLabelKey)
            (deleteKey d.template.labels DefaultDeploymentUniqueLabelKey) &&
          rs.template.core == d.template.core) := by
  refine ⟨List.perm_insertionSort _ _, List.sorted_insertionSort _ _, ?_⟩
  have hpred : ∀ t1 t2 : PodTemplateSpec, equalIgnoreHash t1 t2 =
      (labelsEqual (deleteKey t1.labels DefaultDeploymentUniqueLabelKey)
          (deleteKey t2.labels DefaultDeploymentUniqueLabelKey) &&
        t1.core == t2.core) := fun _ _ => rfl
  by_cases h : (l.filter (fun rs => isControlledBy rs d)).isEmpty
  · rw [List.isEmpty_iff] at h
    simp [getLatestReplicaSet, findNewReplicaSet, h, sortRS]
  · simp [getLatestReplicaSet, findNewReplicaSet, h, hpred]

/-- C3: for a deployment whose fetches succeed, `isDeploymentReady` returns
`(true, nil)` iff the selected current replica set exists and has
`ReadyReplicas ≥ 1`; one owned template-matching replica set with
`ReadyReplicas = 1` gives `true`, with `ReadyReplicas = 0` gives `false`,
and zero owned replica sets give `(false, nil)`. -/
theorem isDeploymentReady_spec (d : Deployment) (l : List ReplicaSet) :
    (isDeploymentReady (Except.ok d) (Except.ok l) = (true, none) ↔
      ∃ rs, getLatestReplicaSet d l = some rs ∧ 1 ≤ rs.readyReplicas) ∧
    (isDeploymentReady (Except.ok d) (Except.ok l)).2 = none ∧
    (l.filter (fun rs => isControlledBy rs d) = [] →
      isDeploymentReady (Except.ok d) (Except.ok l) = (false, none)) ∧
    isDeploymentReady (Except.ok ⟨"uid1", ⟨[("app", "x")], "podspec"⟩⟩)
      (Except.ok [⟨"rs1", 7, some "uid1",
        ⟨[("app", "x"), ("pod-template-hash", "h1")], "podspec"⟩, 1⟩]) =
      (true, none) ∧
    isDeploymentReady (Except.ok ⟨"uid1", ⟨[("app", "x")], "podspec"⟩⟩)
      (Except.ok [⟨"rs1", 7, some "uid1",
        ⟨[("app", "x"), ("pod-template-hash", "h1")], "podspec"⟩, 0⟩]) =
      (false, none) := by
  refine ⟨?_, ?_, ?_, by decide, by decide⟩
  · cases h : getLatestReplicaSet d l with
    | none => simp [isDeploymentReady, h]
    | some rs => simp [isDeploymentReady, h, expectedReadyReplicas, Prod.ext_iff]
  · cases h : getLatestReplicaSet d l <;> simp [isDeploymentReady, h]
  · intro h
    simp [isDeploymentReady, getLatestReplicaSet, h]

/-- Closed instance of `isDeploymentReady_spec` discharging the hypothesis of
its no-owned-replica-sets conjunct. -/
theorem isDeploymentReady_spec_witness :
    (([] : List ReplicaSet).filter
        (fun rs => isControlledBy rs ⟨"uid1", ⟨[], "c"⟩⟩) = []) ∧
    isDeploymentReady (Except.ok ⟨"uid1", ⟨[], "c"⟩⟩)
      (Except.ok ([] : List ReplicaSet)) = (false, none) :=
  ⟨rfl, (isDeploymentReady_spec ⟨"uid1", ⟨[], "c"⟩⟩ []).2.2.1 rfl⟩

/-- C9: the imperative `equalIgnoreHash` never mutates its arguments: the
label maps both input templates reference are unchanged in the final heap,
even though the comparison deletes the `pod-template-hash` label on the
deep copies. -/
theorem equalIgnoreHashImp_frame (σ : LabelHeap) (t1 t2 : PodTemplateRef)
    (h1 : t1.labelsRef < σ.cells.length) (h2 : t2.labelsRef < σ.cells.length) :
    ((equalIgnoreHashImp σ t1 t2).2).get t1.labelsRef = σ.get t1.labelsRef ∧
    ((equalIgnoreHashImp σ t1 t2).2).get t2.labelsRef = σ.get t2.labelsRef := by
  unfold equalIgnoreHashImp LabelHeap.alloc LabelHeap.put LabelHeap.get
  constructor
  · simp only
    rw [List.getElem?_set_ne (by simp; omega), List.getElem?_set_ne (by omega),
      List.getElem?_append_left (by simp; omega), List.getElem?_append_left h1]
  · simp only
    rw [List.getElem?_set_ne (by simp; omega), List.getElem?_set_ne (by omega),
      List.getElem?_append_left (by simp; omega), List.getElem?_append_left h2]

/-- Closed instance of `equalIgnoreHashImp_frame` discharging its
hypotheses on a two-cell heap. -/
theorem equalIgnoreHashImp_frame_witness :
    (0 < (LabelHeap.mk [[("app", "x")], [("pod-template-hash", "h1")]]).cells.length ∧
     1 < (LabelHeap.mk [[("app", "x")], [("pod-template-hash", "h1")]]).cells.length) ∧
    (((equalIgnoreHashImp ⟨[[("app", "x")], [("pod-template-hash", "h1")]]⟩
        ⟨0, "c"⟩ ⟨1, "c"⟩).2).get 0 =
      (LabelHeap.mk [[("app", "x")], [("pod-template-hash", "h1")]]).get 0 ∧
     ((equalIgnoreHashImp ⟨[[("app", "x")], [("pod-template-hash", "h1")]]⟩
        ⟨0, "c"⟩ ⟨1, "c"⟩).2).get 1 =
      (LabelHeap.mk [[("app", "x")], [("pod-template-hash", "h1")]]).get 1) :=
  ⟨⟨by decide, by decide⟩,
    equalIgnoreHashImp_frame ⟨[[("app", "x")], [("pod-template-hash", "h1")]]⟩
      ⟨0, "c"⟩ ⟨1, "c"⟩ (by decide) (by decide)⟩

theorem runGo_always_fail (pipeline tracker : Nat → Except String Unit)
    (err : Nat → String) (hfail : ∀ i, pipeline i = .error (err i)) :
    ∀ remaining attempt lastCause, 1 ≤ remaining →
      runGo pipeline tracker attempt remaining lastCause =
        ((List.range' attempt remaining).flatMap
            (fun i => [.delivered .Running, .attemptWork i]) ++
          [.delivered .failureTerminal],
          .retriesExhausted (err (attempt + remaining - 1))) := by
  intro remaining
  induction remaining with
  | zero => intro _ _ h; omega
  | succ r ih =>
    intro attempt lastCause _
    simp only [runGo, hfail attempt]
    rcases Nat.eq_zero_or_pos r with hr | hr
    · subst hr
      simp [runGo, List.range'_one]
    · rw [ih (attempt + 1) (err attempt) hr]
      have h2 : attempt + 1 + r - 1 = attempt + (r + 1) - 1 := by omega
      rw [List.range'_succ, List.flatMap_cons, List.append_assoc, h2]

theorem countP_running_trace (n : Nat) :
    ∀ a : Nat,
      (((List.range' a n).flatMap
          (fun i => [RunEvent.delivered .Running, RunEvent.attemptWork i])).countP
        isRunningDelivery) = n := by
  induction n with
  | zero => intro a; rfl
  | succ m ih =>
    intro a
    rw [List.range'_succ, List.flatMap_cons, List.countP_append, ih (a + 1)]
    have hc : List.countP isRunningDelivery
        [RunEvent.delivered .Running, RunEvent.attemptWork a] = 1 := rfl
    rw [hc]
    omega

theorem countP_work_trace (n : Nat) :
    ∀ a : Nat,
      (((List.range' a n).flatMap
          (fun i => [RunEvent.delivered .Running, RunEvent.attemptWork i])).countP
        isAttemptWork) = n := by
  induction n with
  | zero => intro a; rfl
  | succ m ih =>
    intro a
    rw [List.range'_succ, List.flatMap_cons, List.countP_append, ih (a + 1)]
    have hc : List.countP isAttemptWork
        [RunEvent.delivered .Running, RunEvent.attemptWork a] = 1 := rfl
    rw [hc]
    omega

/-- C1: for a pipeline failing on every attempt and `maxRetries = n ≥ 1`,
one run performs exactly `n` attempts, delivers `Running` exactly once
immediately before each attempt's work, and returns a RetriesExhaustedError
wrapping the last failure cause. -/
theorem runnerRun_retry_law (n : Nat) (hn : 1 ≤ n)
    (pipeline tracker : Nat → Except String Unit) (err : Nat → String)
    (hfail : ∀ i, pipeline i = .error (err i)) :
    (runnerRun pipeline tracker n).1 =
      (List.range' 1 n).flatMap
        (fun i => [.delivered .Running, .attemptWork i]) ++
        [.delivered .failureTerminal] ∧
    ((runnerRun pipeline tracker n).1.countP isRunningDelivery) = n ∧
    ((runnerRun pipeline tracker n).1.countP isAttemptWork) = n ∧
    (runnerRun pipeline tracker n).2 = .retriesExhausted (err n) := by
  have h := runGo_always_fail pipeline tracker err hfail n 1 "" hn
  unfold runnerRun
  rw [h]
  refine ⟨rfl, ?_, ?_, ?_⟩
  · rw [List.countP_append, countP_running_trace n 1]
    rfl
  · rw [List.countP_append, countP_work_trace n 1]
    rfl
  · have h2 : 1 + n - 1 = n := by omega
    rw [h2]

/-- Closed instance of `runnerRun_retry_law` discharging its hypotheses at
`n = 2` with a pipeline failing with cause `boom` on every attempt. -/
theorem runnerRun_retry_law_witness :
    (1 ≤ 2 ∧ ∀ i : Nat, (fun _ : Nat => (Except.error "boom" : Except String Unit)) i =
      .error ((fun _ : Nat => "boom") i)) ∧
    (runnerRun (fun _ => Except.error "boom") (fun _ => Except.ok ()) 2).2 =
      .retriesExhausted "boom" :=
  ⟨⟨by decide, fun _ => rfl⟩,
    (runnerRun_retry_law 2 (by decide) (fun _ => Except.error "boom")
      (fun _ => Except.ok ()) (fun _ => "boom") (fun _ => rfl)).2.2.2⟩

/-- C2 counter-evidence: when the decoded model's callback URL is empty,
`newRemoteCallbackHandler` fails and the handler writes the HTTP 500
response with body `"Internal Server Error

<error detail>"`, yet — the
source never returns after `sendError` — it still calls `r.start`, so the
reconciliation run executes; when decoding itself fails, the 500 is written,
the run does not execute, and the handler then panics dereferencing the nil
model. -/
theorem handleRun_bug :
    handleRun (Except.ok ⟨""⟩) (fun _ => Except.ok ()) =
      ⟨[⟨500, "Internal Server Error

callback URL is empty"⟩], true, .normal⟩ ∧
    handleRun (Except.error "contract version cannot be empty")
        (fun _ => Except.ok ()) =
      ⟨[⟨500, "Internal Server Error

contract version cannot be empty"⟩],
        false, .panicked⟩ :=
  ⟨rfl, rfl⟩

end Compreconciler
